import Mathlib

/-!
Verification development for the WakeWise sleep-pattern analysis and wake
prediction engine.

The TypeScript services `SleepAnalysisService`, `WakePredictorService` and
`FeedbackEngine` are shallowly embedded below.  JavaScript `number`
arithmetic is modelled with exact rationals (`ℚ`), `Math.sqrt` with
`Real.sqrt`, and `Date` values as integer milliseconds since the epoch
interpreted in a fixed (UTC) time zone; `Math.round` is `⌊x + 1/2⌋`, which
agrees with the JavaScript semantics for all reals, including negatives.
Storage access is replaced by explicit arguments: each service method takes
the data it would have read from the storage collaborator.
-/

namespace WakeWise

/-- JavaScript `Math.round` on a rational: round half toward positive infinity. -/
def jsRoundQ (q : ℚ) : ℤ := ⌊q + 1/2⌋

/-- JavaScript `Math.round` on a real (used where `Math.sqrt` has occurred). -/
noncomputable def jsRoundR (x : ℝ) : ℤ := ⌊x + 1/2⌋

/-- `Math.round(q * 10) / 10`: rounding to one decimal place. -/
def jsRound10 (q : ℚ) : ℚ := (jsRoundQ (q * 10) : ℚ) / 10

/-- Truncation toward zero, as JavaScript coerces in `a % b`. -/
def jsTrunc (q : ℚ) : ℤ := if q < 0 then ⌈q⌉ else ⌊q⌋

/-- JavaScript `%` on numbers: remainder with the sign of the dividend. -/
def jsMod (a b : ℚ) : ℚ := a - b * jsTrunc (a / b)

/-- Milliseconds in a day / hour / minute. -/
def msPerDay : ℤ := 86400000
def msPerHour : ℤ := 3600000
def msPerMinute : ℤ := 60000

/-- `Date.prototype.getHours` (fixed UTC zone): hour-of-day 0..23. -/
def jsGetHours (t : ℤ) : ℤ := (t.emod msPerDay).ediv msPerHour

/-- `Date.prototype.getMinutes` (fixed UTC zone): minute-of-hour 0..59. -/
def jsGetMinutes (t : ℤ) : ℤ := (t.emod msPerHour).ediv msPerMinute

/-- Midnight of the day containing `t`. -/
def dayStart (t : ℤ) : ℤ := t - t.emod msPerDay

/-- Sleep stage classification (`models/types.ts`). -/
inductive SleepStageType where
  | deep
  | light
  | rem
  | awake
deriving DecidableEq, Repr

/-- One classified interval of a night (`models/types.ts`, `SleepStage`). -/
structure SleepStage where
  type : SleepStageType
  startTime : ℤ
  endTime : ℤ
  durationMinutes : ℚ
deriving DecidableEq, Repr

/-- One night of sleep (`models/types.ts`, `SleepSession`).  Only the fields
the engine reads are embedded; `stages` is optional because the services
guard every access with a `!session.stages` check. -/
structure SleepSession where
  sleepStart : ℤ
  sleepEnd : ℤ
  totalDurationMinutes : ℚ
  stages : Option (List SleepStage)
deriving DecidableEq, Repr

/-- A detected interval of elevated light-sleep probability
(`models/types.ts`, `TimeWindow`). -/
structure TimeWindow where
  startMinutesFromSleep : ℚ
  endMinutesFromSleep : ℚ
  probability : ℚ
deriving DecidableEq, Repr

/-- The derived statistical model (`models/types.ts`, `SleepPattern`). -/
structure SleepPattern where
  averageSleepDuration : ℤ
  averageCycleLength : ℤ
  typicalLightSleepWindows : List TimeWindow
  consistency : ℤ
  dataPoints : ℕ
deriving DecidableEq, Repr

/-- A user-configured alarm (`models/types.ts`, `WakeWindow`).  The
`"HH:MM"` strings are embedded as already-split `(hours, minutes)` pairs,
matching the `split(':').map(Number)` parsing in the predictor. -/
structure WakeWindow where
  hardWakeTime : ℕ × ℕ
  windowDurationMinutes : ℕ
  earliestWakeTime : Option (ℕ × ℕ)
  enabled : Bool
deriving DecidableEq, Repr

/-- The engine recommendation (`models/types.ts`, `WakePrediction`). -/
structure WakePrediction where
  predictedWakeTime : ℤ
  confidence : ℤ
  reasoning : String
  fallbackTime : ℤ
  predictedStage : SleepStageType
deriving DecidableEq, Repr

/-- A user's self-reported wake quality (`models/types.ts`,
`FeedbackRating`).  The `date` string is embedded as its timestamp. -/
structure FeedbackRating where
  date : ℤ
  immediateFeeling : ℚ
  alertnessAfter30Min : Option ℚ
  usedPrediction : Bool
deriving DecidableEq, Repr

/-- User settings (`models/types.ts`, `UserSettings`); fetched but not used
by `generatePrediction`. -/
structure UserSettings where
  confidenceThreshold : ℤ
deriving DecidableEq, Repr

/-- Constants from `constants/config.ts` (`SLEEP_ANALYSIS`). -/
def MIN_DATA_DAYS : ℕ := 7
def AVERAGE_CYCLE_LENGTH : ℤ := 90
def CONFIDENCE_BOOST_PER_DAY : ℚ := 2
def MAX_CONFIDENCE : ℤ := 95

end WakeWise

namespace WakeWise.SleepAnalysisService

open WakeWise

/-- `calculateAverageDuration`: rounded mean of `totalDurationMinutes`. -/
def calculateAverageDuration (sessions : List SleepSession) : ℤ :=
  jsRoundQ ((sessions.map (·.totalDurationMinutes)).foldl (· + ·) 0 / sessions.length)

/-- The stage walk inside `detectCycleLength`: state is the current cycle
start (`cycleStart`) and the `inDeepSleep` flag; emits candidate cycle
lengths in [60, 120] minutes in traversal order. -/
def cycleWalk : List SleepStage → Option ℤ → Bool → List ℚ
  | [], _, _ => []
  | st :: rest, cycleStart, inDeep =>
    if st.type = SleepStageType.light ∧ inDeep = false ∧ cycleStart = none then
      cycleWalk rest (some st.startTime) inDeep
    else if st.type = SleepStageType.deep then
      cycleWalk rest cycleStart true
    else if st.type = SleepStageType.light ∧ inDeep = true ∧ cycleStart.isSome then
      let len : ℚ := ((st.startTime - cycleStart.getD 0 : ℤ) : ℚ) / 60000
      (if 60 ≤ len ∧ len ≤ 120 then [len] else []) ++
        cycleWalk rest (some st.startTime) false
    else
      cycleWalk rest cycleStart inDeep

/-- Candidate cycle lengths collected across all sessions; sessions without
a stage list or with fewer than 4 stages are skipped. -/
def cycleCandidates (sessions : List SleepSession) : List ℚ :=
  (sessions.map (fun s =>
    match s.stages with
    | none => []
    | some sts => if sts.length < 4 then [] else cycleWalk sts none false)).flatten

/-- `detectCycleLength`: fall back to 90 when no candidate survives,
otherwise sort ascending and round the element at index `⌊n/2⌋`. -/
def detectCycleLength (sessions : List SleepSession) : ℤ :=
  let cycleLengths := cycleCandidates sessions
  if cycleLengths = [] then AVERAGE_CYCLE_LENGTH
  else jsRoundQ ((cycleLengths.insertionSort (· ≤ ·)).getD (cycleLengths.length / 2) 0)

/-- Offset of a stage from its session's sleep start, in minutes. -/
def stageOffset (s : SleepSession) (st : SleepStage) : ℚ :=
  ((st.startTime - s.sleepStart : ℤ) : ℚ) / 60000

/-- Histogram bucket of a stage: 15-minute buckets over [0, 600) minutes
from sleep onset; `none` when the offset is out of range.  (The source's
extra `bucketIndex < length` test is implied by `offset < 600`.) -/
def stageBucket (s : SleepSession) (st : SleepStage) : Option ℕ :=
  let m := stageOffset s st
  if 0 ≤ m ∧ m < 600 then some (⌊m / 15⌋).toNat else none

/-- `totalBuckets[i]` after the histogram pass of `findLightSleepWindows`. -/
def bucketTotal (sessions : List SleepSession) (i : ℕ) : ℕ :=
  (sessions.map (fun s =>
    ((s.stages.getD []).filter (fun st => stageBucket s st = some i)).length)).sum

/-- `lightSleepBuckets[i]` after the histogram pass. -/
def bucketLight (sessions : List SleepSession) (i : ℕ) : ℕ :=
  (sessions.map (fun s =>
    ((s.stages.getD []).filter (fun st =>
      stageBucket s st = some i ∧ st.type = SleepStageType.light)).length)).sum

/-- A single bucket's light-sleep probability: `light/total`, 0 on an empty
bucket. -/
def bucketProb (light tot : ℕ) : ℚ := if 0 < tot then (light : ℚ) / tot else 0

/-- Probability pushed with a closed window: the sliced light counts summed
with initial accumulator 0, divided by the sliced totals summed with
initial accumulator **1** (the source's `reduce((a, b) => a + b, 1)`). -/
def windowProb (light tot : ℕ → ℕ) (a b : ℕ) : ℚ :=
  ((∑ j ∈ Finset.Ico a b, light j : ℕ) : ℚ) /
    ((1 + ∑ j ∈ Finset.Ico a b, tot j : ℕ) : ℚ)

/-- The window scan of `findLightSleepWindows`: `i` is the current bucket,
the fuel counts the buckets still to visit, `ws` is `windowStart` (the
minute at which the open window began, or `none`).  A window still open
after the last bucket is closed at minute 600 with probability 0.5. -/
def scanAux (light tot : ℕ → ℕ) : ℕ → ℕ → Option ℕ → List TimeWindow
  | _, 0, none => []
  | _, 0, some s => [⟨(s : ℚ), 600, 1/2⟩]
  | i, n + 1, ws =>
    if (2 : ℚ)/5 ≤ bucketProb (light i) (tot i) then
      scanAux light tot (i + 1) n (some (ws.getD (15 * i)))
    else
      match ws with
      | none => scanAux light tot (i + 1) n none
      | some s =>
        ⟨(s : ℚ), ((15 * i : ℕ) : ℚ), windowProb light tot (s / 15) i⟩ ::
          scanAux light tot (i + 1) n none

/-- `findLightSleepWindows`: 40 buckets of 15 minutes covering 0–600. -/
def findLightSleepWindows (sessions : List SleepSession) : List TimeWindow :=
  scanAux (bucketLight sessions) (bucketTotal sessions) 0 40 none

/-- `calculateVariation`: population standard deviation (`Math.sqrt` of the
mean squared deviation from the mean). -/
noncomputable def calculateVariation (values : List ℚ) : ℝ :=
  let mean : ℚ := values.foldl (· + ·) 0 / (values.length : ℚ)
  let squaredDiffs : List ℚ := values.map (fun v => (v - mean) ^ 2)
  let variance : ℚ := squaredDiffs.foldl (· + ·) 0 / (values.length : ℚ)
  Real.sqrt (variance : ℝ)

/-- `getMinuteOfDay`: minute-of-day, with times before 4:00 shifted by
+1440 so late-night and after-midnight times compare on one axis. -/
def getMinuteOfDay (t : ℤ) : ℤ :=
  let hours := jsGetHours t
  let minutes := jsGetMinutes t
  hours * 60 + minutes + (if hours < 4 then 24 * 60 else 0)

/-- `calculateConsistency`: 0 below 3 sessions, else the rounded mean of
three sub-scores `max 0 (100 - (sd/60)*50)` for the standard deviations of
duration, bedtime minute-of-day and wake minute-of-day. -/
noncomputable def calculateConsistency (sessions : List SleepSession) : ℤ :=
  if sessions.length < 3 then 0
  else
    let durations := sessions.map (·.totalDurationMinutes)
    let bedtimes := sessions.map (fun s => ((getMinuteOfDay s.sleepStart : ℤ) : ℚ))
    let waketimes := sessions.map (fun s => ((getMinuteOfDay s.sleepEnd : ℤ) : ℚ))
    let durationScore : ℝ := max 0 (100 - calculateVariation durations / 60 * 50)
    let bedtimeScore : ℝ := max 0 (100 - calculateVariation bedtimes / 60 * 50)
    let waketimeScore : ℝ := max 0 (100 - calculateVariation waketimes / 60 * 50)
    jsRoundR ((durationScore + bedtimeScore + waketimeScore) / 3)

/-- The `SleepPattern` record built by `analyzePatterns` once the data
threshold is met. -/
noncomputable def analysisPattern (sessions : List SleepSession) : SleepPattern :=
  { averageSleepDuration := calculateAverageDuration sessions
    averageCycleLength := detectCycleLength sessions
    typicalLightSleepWindows := findLightSleepWindows sessions
    consistency := calculateConsistency sessions
    dataPoints := sessions.length }

/-- `analyzePatterns`: absent below `MIN_DATA_DAYS` sessions. -/
noncomputable def analyzePatterns (sessions : List SleepSession) : Option SleepPattern :=
  if sessions.length < MIN_DATA_DAYS then none else some (analysisPattern sessions)

/-- `getMostLikelyStage`: first matching light-sleep window wins, else the
idealized cycle model at `offset mod averageCycleLength`. -/
def getMostLikelyStage (minutesFromSleepStart : ℚ) (pattern : SleepPattern) :
    SleepStageType × ℚ :=
  match pattern.typicalLightSleepWindows.find? (fun w =>
      decide (w.startMinutesFromSleep ≤ minutesFromSleepStart ∧
        minutesFromSleepStart ≤ w.endMinutesFromSleep)) with
  | some w => (SleepStageType.light, w.probability)
  | none =>
    let cycleLength : ℚ := (pattern.averageCycleLength : ℚ)
    let positionInCycle := jsMod minutesFromSleepStart cycleLength
    let cyclePercentage := positionInCycle / cycleLength
    if cyclePercentage < 1/5 then (SleepStageType.light, 3/5)
    else if cyclePercentage < 1/2 then (SleepStageType.deep, 1/2)
    else if cyclePercentage < 3/4 then (SleepStageType.light, 1/2)
    else (SleepStageType.rem, 1/2)

end WakeWise.SleepAnalysisService

namespace WakeWise.WakePredictorService

open WakeWise

/-- `parseWakeTime`: place the `(hours, minutes)` wake time on the
reference date, rolled to the next day when the reference hour is ≥ 18
(`setDate(getDate() + 1)` then `setHours(h, m, 0, 0)`). -/
def parseWakeTime (timeStr : ℕ × ℕ) (referenceDate : ℤ) : ℤ :=
  let base := if 18 ≤ jsGetHours referenceDate then referenceDate + msPerDay
              else referenceDate
  dayStart base + (timeStr.1 : ℤ) * msPerHour + (timeStr.2 : ℤ) * msPerMinute

/-- The resolved hard wake time of `generatePrediction`. -/
def resolveHardWake (ww : WakeWindow) (estimatedBedtime : ℤ) : ℤ :=
  parseWakeTime ww.hardWakeTime estimatedBedtime

/-- The resolved earliest wake time: the explicit `earliestWakeTime` when
set, else `hardWakeTime − windowDurationMinutes`. -/
def resolveEarliestWake (ww : WakeWindow) (estimatedBedtime : ℤ) : ℤ :=
  match ww.earliestWakeTime with
  | some e => parseWakeTime e estimatedBedtime
  | none => resolveHardWake ww estimatedBedtime - (ww.windowDurationMinutes : ℤ) * msPerMinute

/-- `getMinuteOfDay` of the predictor (same code as the analyzer's). -/
def getMinuteOfDay (t : ℤ) : ℤ :=
  let hours := jsGetHours t
  let minutes := jsGetMinutes t
  hours * 60 + minutes + (if hours < 4 then 24 * 60 else 0)

/-- `getTypicalBedtimeMinute`: the source returns the constant 23:00. -/
def getTypicalBedtimeMinute (_pattern : SleepPattern) : ℤ := 23 * 60

/-- `adjustConfidence`: data boost, consistency boost, unusual-bedtime
penalty, feedback bonus, then `max(0, min(95, round(confidence)))`. -/
def adjustConfidence (baseConfidence : ℚ) (pattern : SleepPattern)
    (feedback : List FeedbackRating) (bedtime : ℤ) : ℤ :=
  let dataBoost : ℚ :=
    min 20 (((pattern.dataPoints : ℚ) - (MIN_DATA_DAYS : ℚ)) * CONFIDENCE_BOOST_PER_DAY)
  let c1 : ℚ := baseConfidence + dataBoost
  let c2 : ℚ := c1 + ((pattern.consistency : ℚ) / 100) * 15
  let typicalBedtimeMinute := getTypicalBedtimeMinute pattern
  let tonightBedtimeMinute := getMinuteOfDay bedtime
  let bedtimeDiff : ℤ := |tonightBedtimeMinute - typicalBedtimeMinute|
  let c3 : ℚ :=
    if 60 < bedtimeDiff then c2 - min 30 (((bedtimeDiff : ℚ) - 60) / 2) else c2
  let c4 : ℚ :=
    if 0 < feedback.length then
      let recentFeedback := feedback.drop (feedback.length - 14)
      let avgRating : ℚ :=
        (recentFeedback.map (·.immediateFeeling)).foldl (· + ·) 0 / recentFeedback.length
      if 4 ≤ avgRating then c3 + 10
      else if avgRating ≤ 2 then c3 - 10
      else c3
    else c3
  max 0 (min MAX_CONFIDENCE (jsRoundQ c4))

/-- Window duration in minutes, as computed inside `findOptimalWakeTime`. -/
def windowDur (earliestWake latestWake : ℤ) : ℚ :=
  ((latestWake - earliestWake : ℤ) : ℚ) / 60000

/-- The candidate offsets visited by the 5-minute scan: `0, 5, …` up to and
including the last multiple of 5 that is `≤ windowDuration`; empty when the
duration is negative. -/
def scanOffsets (wd : ℚ) : List ℕ :=
  if 0 ≤ wd then (List.range ((⌊wd / 5⌋).toNat + 1)).map (fun k => 5 * k) else []

/-- Candidate wake time at a scan offset. -/
def candTime (earliestWake : ℤ) (offset : ℕ) : ℤ :=
  earliestWake + (offset : ℤ) * 60000

/-- Stage and probability queried for a candidate. -/
def candStageProb (earliestWake bedtime : ℤ) (pattern : SleepPattern) (offset : ℕ) :
    SleepStageType × ℚ :=
  SleepAnalysisService.getMostLikelyStage
    (((candTime earliestWake offset - bedtime : ℤ) : ℚ) / 60000) pattern

/-- Candidate score: stage-weighted probability plus the earliness bonus
`((windowDuration − offset) / windowDuration) * 10`. -/
def candScore (earliestWake bedtime : ℤ) (wd : ℚ) (pattern : SleepPattern) (offset : ℕ) : ℚ :=
  let sp := candStageProb earliestWake bedtime pattern offset
  let stageScore : ℚ :=
    match sp.1 with
    | SleepStageType.light => sp.2 * 100
    | SleepStageType.rem => sp.2 * 70
    | SleepStageType.awake => sp.2 * 60
    | SleepStageType.deep => sp.2 * 20
  stageScore + (wd - (offset : ℚ)) / wd * 10

/-- One iteration of the scan loop: replace the running best only on a
strictly greater score. -/
def searchStep (earliestWake bedtime : ℤ) (wd : ℚ) (pattern : SleepPattern)
    (st : ℤ × ℚ × SleepStageType) (offset : ℕ) : ℤ × ℚ × SleepStageType :=
  if st.2.1 < candScore earliestWake bedtime wd pattern offset then
    (candTime earliestWake offset, candScore earliestWake bedtime wd pattern offset,
      (candStageProb earliestWake bedtime pattern offset).1)
  else st

/-- Result record of `findOptimalWakeTime`. -/
structure OptimalResult where
  optimalTime : ℤ
  stage : SleepStageType
  baseConfidence : ℤ
deriving DecidableEq, Repr

/-- `findOptimalWakeTime`: scan `earliestWake .. latestWake` in 5-minute
steps from the initial best `(latestWake, 0, light)`.  When the window
duration is 0 the JavaScript earliness bonus is `0/0 = NaN`, every `>`
comparison is false and the loop never replaces the initial best; when it
is negative the loop body never runs: both cases are embedded by skipping
the fold. -/
def findOptimalWakeTime (earliestWake latestWake bedtime : ℤ)
    (pattern : SleepPattern) : OptimalResult :=
  let wd := windowDur earliestWake latestWake
  let init : ℤ × ℚ × SleepStageType := (latestWake, 0, SleepStageType.light)
  let best :=
    if 0 < wd then
      (scanOffsets wd).foldl (searchStep earliestWake bedtime wd pattern) init
    else init
  { optimalTime := best.1
    stage := best.2.2
    baseConfidence := min MAX_CONFIDENCE (jsRoundQ (best.2.1 * (4/5))) }

/-- Name of a sleep stage as it appears in reasoning strings. -/
def stageName : SleepStageType → String
  | SleepStageType.deep => "deep"
  | SleepStageType.light => "light"
  | SleepStageType.rem => "rem"
  | SleepStageType.awake => "awake"

/-- Stand-in for `toLocaleTimeString` (locale formatting is abstracted). -/
def formatTime (t : ℤ) : String := toString t

/-- `generateReasoning`: fixed-rule explanatory text. -/
def generateReasoning (optimalTime hardWakeTime : ℤ) (stage : SleepStageType)
    (confidence : ℤ) (pattern : SleepPattern) : String :=
  let timeDiff := jsRoundQ (((hardWakeTime - optimalTime : ℤ) : ℚ) / 60000)
  let timeStr := formatTime optimalTime
  if confidence < 30 then
    "Limited data (" ++ toString pattern.dataPoints ++ " nights). Prediction is rough estimate."
  else if timeDiff = 0 then
    "Your hard wake time aligns well with your sleep pattern."
  else
    let stageDesc :=
      if stage = SleepStageType.light then "light sleep" else stageName stage ++ " stage"
    if 70 ≤ confidence then
      "Based on " ++ toString pattern.dataPoints ++ " nights of data, you will likely be in "
        ++ stageDesc ++ " around " ++ timeStr ++ ", " ++ toString timeDiff
        ++ " min before your deadline."
    else
      "Estimated " ++ stageDesc ++ " around " ++ timeStr
        ++ ". Confidence is moderate due to pattern variability."

/-- `generatePrediction`.  The pattern the source fetches through
`sleepAnalysisService.analyzePatterns()` and the stored settings and
feedback history are passed explicitly; the settings are fetched but never
used by the source method. -/
def generatePrediction (pattern : Option SleepPattern) (ww : WakeWindow)
    (estimatedBedtime : ℤ) (_settings : UserSettings)
    (feedback : List FeedbackRating) : WakePrediction :=
  let hardWakeTime := resolveHardWake ww estimatedBedtime
  let earliestWake := resolveEarliestWake ww estimatedBedtime
  match pattern with
  | none =>
    { predictedWakeTime := hardWakeTime
      confidence := 0
      reasoning := "Not enough sleep data yet. Using your hard wake time."
      fallbackTime := hardWakeTime
      predictedStage := SleepStageType.light }
  | some pat =>
    let r := findOptimalWakeTime earliestWake hardWakeTime estimatedBedtime pat
    let adjustedConfidence :=
      adjustConfidence (r.baseConfidence : ℚ) pat feedback estimatedBedtime
    { predictedWakeTime := r.optimalTime
      confidence := adjustedConfidence
      reasoning := generateReasoning r.optimalTime hardWakeTime r.stage adjustedConfidence pat
      fallbackTime := hardWakeTime
      predictedStage := r.stage }

end WakeWise.WakePredictorService

namespace WakeWise.FeedbackEngine

open WakeWise

/-- Aggregate feedback statistics (`FeedbackStats` in the source). -/
structure FeedbackStats where
  totalRatings : ℕ
  averageFeeling : ℚ
  averageAlertness : Option ℚ
  predictionAccuracy : ℤ
  improvementTrend : ℤ
deriving DecidableEq, Repr

/-- `calculateTrend`: 0 below 6 ratings, else sort chronologically, split
at `⌊n/2⌋`, and report `round((secondMean − firstMean) * 20)`. -/
def calculateTrend (ratings : List FeedbackRating) : ℤ :=
  if ratings.length < 6 then 0
  else
    let sorted := ratings.insertionSort (fun a b => a.date ≤ b.date)
    let midpoint := sorted.length / 2
    let firstHalf := sorted.take midpoint
    let secondHalf := sorted.drop midpoint
    let firstAvg : ℚ :=
      (firstHalf.map (·.immediateFeeling)).foldl (· + ·) 0 / firstHalf.length
    let secondAvg : ℚ :=
      (secondHalf.map (·.immediateFeeling)).foldl (· + ·) 0 / secondHalf.length
    jsRoundQ ((secondAvg - firstAvg) * 20)

/-- `getStats`: all-zero record on an empty log, otherwise rounded means
and the prediction-accuracy percentage.  JavaScript's
`avgAlertness ? … : null` treats a 0 mean as falsy, hence the extra 0
test. -/
def getStats (ratings : List FeedbackRating) : FeedbackStats :=
  if ratings.length = 0 then
    { totalRatings := 0
      averageFeeling := 0
      averageAlertness := none
      predictionAccuracy := 0
      improvementTrend := 0 }
  else
    let avgFeeling : ℚ :=
      (ratings.map (·.immediateFeeling)).foldl (· + ·) 0 / ratings.length
    let alertnessRatings := ratings.filter (fun r => r.alertnessAfter30Min ≠ none)
    let avgAlertness : Option ℚ :=
      if 0 < alertnessRatings.length then
        some ((alertnessRatings.map (fun r => r.alertnessAfter30Min.getD 0)).foldl
          (· + ·) 0 / alertnessRatings.length)
      else none
    let predictionRatings := ratings.filter (·.usedPrediction)
    let goodPredictionRatings :=
      predictionRatings.filter (fun r => 4 ≤ r.immediateFeeling)
    let predictionAccuracy : ℚ :=
      if 0 < predictionRatings.length then
        ((goodPredictionRatings.length : ℚ) / (predictionRatings.length : ℚ)) * 100
      else 0
    { totalRatings := ratings.length
      averageFeeling := jsRound10 avgFeeling
      averageAlertness :=
        match avgAlertness with
        | some v => if v = 0 then none else some (jsRound10 v)
        | none => none
      predictionAccuracy := jsRoundQ predictionAccuracy
      improvementTrend := calculateTrend ratings }

end WakeWise.FeedbackEngine

namespace WakeWise

open WakeWise.SleepAnalysisService WakeWise.WakePredictorService WakeWise.FeedbackEngine

/-- Folding `+` from an accumulator equals the accumulator plus the sum. -/
theorem foldl_add_eq_sum (l : List ℚ) : ∀ a : ℚ, l.foldl (· + ·) a = a + l.sum := by
  induction l with
  | nil => intro a; simp
  | cons x xs ih =>
    intro a
    simp only [List.foldl_cons, List.sum_cons, ih (a + x)]
    ring

/-- Six sessions: below the 7-night threshold. -/
def sWit6 : List SleepSession := List.replicate 6 ⟨0, 28800000, 480, none⟩

/-- Seven identical sessions: at the 7-night threshold. -/
def sWit7 : List SleepSession := List.replicate 7 ⟨0, 28800000, 480, none⟩

/-- The fixture of the spec: feelings `[5,5,1,1]`, prediction used for the
first two ratings only. -/
def sampleRatings : List FeedbackRating :=
  [⟨0, 5, none, true⟩, ⟨1, 5, none, true⟩, ⟨2, 1, none, false⟩, ⟨3, 1, none, false⟩]

/-- Claim C2: for every wake window, bedtime, pattern, settings and
feedback history, the confidence of the returned `WakePrediction` is an
integer in [0, 95], in the absent-pattern branch and in the
adjusted-confidence branch alike (integrality holds because
`Math.round` makes the value an integer; the embedding types it `ℤ`). -/
theorem prediction_confidence_bounds :
    (∀ (base : ℚ) (pat : SleepPattern) (fb : List FeedbackRating) (bed : ℤ),
      0 ≤ adjustConfidence base pat fb bed ∧ adjustConfidence base pat fb bed ≤ 95)
    ∧ ∀ (pattern : Option SleepPattern) (ww : WakeWindow) (bed : ℤ)
        (settings : UserSettings) (fb : List FeedbackRating),
      0 ≤ (generatePrediction pattern ww bed settings fb).confidence ∧
        (generatePrediction pattern ww bed settings fb).confidence ≤ 95 := by
  have hadj : ∀ (base : ℚ) (pat : SleepPattern) (fb : List FeedbackRating) (bed : ℤ),
      0 ≤ adjustConfidence base pat fb bed ∧ adjustConfidence base pat fb bed ≤ 95 := by
    intro base pat fb bed
    unfold adjustConfidence
    refine ⟨le_max_left _ _, ?_⟩
    refine max_le (by norm_num) ?_
    exact (min_le_left _ _).trans (by norm_num [MAX_CONFIDENCE])
  refine ⟨hadj, ?_⟩
  intro pattern ww bed settings fb
  cases pattern with
  | none => exact ⟨le_refl 0, show (0 : ℤ) ≤ 95 by norm_num⟩
  | some pat => exact hadj _ pat fb bed

/-- Claim C3: with fewer than 7 sessions `analyzePatterns` returns absent,
and with an absent pattern `generatePrediction` degrades to confidence 0
with the predicted and fallback times both equal to the hard wake time. -/
theorem insufficient_data_degrades :
    (∀ sessions : List SleepSession,
      sessions.length < 7 → analyzePatterns sessions = none)
    ∧ ∀ (ww : WakeWindow) (bed : ℤ) (settings : UserSettings) (fb : List FeedbackRating),
      (generatePrediction none ww bed settings fb).confidence = 0 ∧
      (generatePrediction none ww bed settings fb).predictedWakeTime = resolveHardWake ww bed ∧
      (generatePrediction none ww bed settings fb).fallbackTime = resolveHardWake ww bed := by
  constructor
  · intro sessions h
    unfold analyzePatterns
    rw [if_pos]
    simpa [MIN_DATA_DAYS] using h
  · intro ww bed settings fb
    exact ⟨rfl, rfl, rfl⟩

/-- Witness for C3 at six sessions. -/
theorem insufficient_data_degrades_witness :
    sWit6.length < 7 ∧ analyzePatterns sWit6 = none :=
  ⟨by decide, insufficient_data_degrades.1 sWit6 (by decide)⟩

/-- Claim C4: whenever `analyzePatterns` returns a pattern, its
`dataPoints` equals the session count and that count is at least 7. -/
theorem pattern_dataPoints_invariant :
    ∀ (sessions : List SleepSession) (pat : SleepPattern),
      analyzePatterns sessions = some pat →
      pat.dataPoints = sessions.length ∧ 7 ≤ sessions.length := by
  intro sessions pat h
  unfold analyzePatterns at h
  by_cases hlen : sessions.length < MIN_DATA_DAYS
  · rw [if_pos hlen] at h
    exact absurd h (by simp)
  · rw [if_neg hlen] at h
    have hp : pat = analysisPattern sessions := (Option.some_inj.mp h).symm
    subst hp
    refine ⟨rfl, ?_⟩
    simp only [MIN_DATA_DAYS] at hlen
    omega

/-- Witness for C4 at seven sessions. -/
theorem pattern_dataPoints_invariant_witness :
    analyzePatterns sWit7 = some (analysisPattern sWit7) ∧
      (analysisPattern sWit7).dataPoints = sWit7.length ∧ 7 ≤ sWit7.length :=
  have h : analyzePatterns sWit7 = some (analysisPattern sWit7) := by
    unfold analyzePatterns
    rw [if_neg (by decide)]
  ⟨h, (pattern_dataPoints_invariant sWit7 _ h).1,
    (pattern_dataPoints_invariant sWit7 _ h).2⟩

/-- Claim C9: on a non-empty rating list `getStats` reports the mean
feeling rounded to one decimal and the rounded percentage of
prediction-used entries rated at least 4 (0 when none used a prediction);
on the `[5,5,1,1]` fixture with the first two prediction-used this gives
`averageFeeling = 3.0` and `predictionAccuracy = 100`. -/
theorem feedback_stats_spec :
    (∀ ratings : List FeedbackRating, ratings ≠ [] →
      (getStats ratings).averageFeeling
          = jsRound10 ((ratings.map (·.immediateFeeling)).sum / ratings.length) ∧
      (getStats ratings).predictionAccuracy
          = (if (ratings.filter (·.usedPrediction)).length = 0 then 0
             else jsRoundQ ((((ratings.filter (·.usedPrediction)).filter
                   (fun r => 4 ≤ r.immediateFeeling)).length : ℚ)
                 / ((ratings.filter (·.usedPrediction)).length : ℚ) * 100)))
    ∧ (getStats sampleRatings).averageFeeling = 3
    ∧ (getStats sampleRatings).predictionAccuracy = 100 := by
  refine ⟨?_, ?_, ?_⟩
  · intro ratings h
    have hlen : ¬ ratings.length = 0 := by simpa using h
    unfold getStats
    rw [if_neg hlen]
    dsimp only
    constructor
    · rw [foldl_add_eq_sum, zero_add]
    · by_cases hp : (ratings.filter (·.usedPrediction)).length = 0
      · rw [if_pos hp,
          if_neg (by omega : ¬ 0 < (ratings.filter (·.usedPrediction)).length)]
        norm_num [jsRoundQ]
      · rw [if_neg hp,
          if_pos (by omega : 0 < (ratings.filter (·.usedPrediction)).length)]
  · norm_num [getStats, sampleRatings, jsRound10, jsRoundQ]
  · norm_num [getStats, sampleRatings, jsRound10, jsRoundQ]

/-- Witness for C9 at the `[5,5,1,1]` fixture. -/
theorem feedback_stats_spec_witness :
    sampleRatings ≠ [] ∧
      ((getStats sampleRatings).averageFeeling
          = jsRound10 ((sampleRatings.map (·.immediateFeeling)).sum / sampleRatings.length) ∧
        (getStats sampleRatings).predictionAccuracy
          = (if (sampleRatings.filter (·.usedPrediction)).length = 0 then 0
             else jsRoundQ ((((sampleRatings.filter (·.usedPrediction)).filter
                   (fun r => 4 ≤ r.immediateFeeling)).length : ℚ)
                 / ((sampleRatings.filter (·.usedPrediction)).length : ℚ) * 100))) :=
  ⟨by decide, feedback_stats_spec.1 sampleRatings (by decide)⟩

/-- Claim C10: on an empty rating log `getStats` returns exactly the
all-default record (zeroes, and `null` alertness) without failing. -/
theorem feedback_stats_empty :
    getStats ([] : List FeedbackRating) =
      { totalRatings := 0, averageFeeling := 0, averageAlertness := none,
        predictionAccuracy := 0, improvementTrend := 0 } := rfl

end WakeWise

namespace WakeWise

open WakeWise.SleepAnalysisService WakeWise.WakePredictorService

/-- Every scanned offset is at most the window duration. -/
theorem scanOffsets_le (wd : ℚ) : ∀ o ∈ scanOffsets wd, (o : ℚ) ≤ wd := by
  intro o ho
  unfold scanOffsets at ho
  by_cases h0 : 0 ≤ wd
  · rw [if_pos h0] at ho
    rcases List.mem_map.mp ho with ⟨k, hk, rfl⟩
    have hk' : k ≤ (⌊wd / 5⌋).toNat := by
      have := List.mem_range.mp hk
      omega
    have hfl : (0 : ℤ) ≤ ⌊wd / 5⌋ := by
      apply Int.floor_nonneg.mpr
      positivity
    have hkz : (k : ℤ) ≤ ⌊wd / 5⌋ := by
      omega
    have hq : ((k : ℤ) : ℚ) ≤ wd / 5 := by
      exact_mod_cast Int.le_floor.mp hkz
    have : (k : ℚ) ≤ wd / 5 := by exact_mod_cast hq
    push_cast
    linarith
  · rw [if_neg h0] at ho
    exact absurd ho (List.not_mem_nil o)

/-- The best time returned by the scan fold is the initial best or one of
the visited candidates. -/
theorem foldl_searchStep_time_mem (e b : ℤ) (wd : ℚ) (pat : SleepPattern) :
    ∀ (l : List ℕ) (st : ℤ × ℚ × SleepStageType),
      (l.foldl (searchStep e b wd pat) st).1 = st.1 ∨
        ∃ o ∈ l, (l.foldl (searchStep e b wd pat) st).1 = candTime e o := by
  intro l
  induction l with
  | nil => intro st; exact Or.inl rfl
  | cons o rest ih =>
    intro st
    rw [List.foldl_cons]
    rcases ih (searchStep e b wd pat st o) with h | ⟨o', ho', h⟩
    · by_cases hlt : st.2.1 < candScore e b wd pat o
      · refine Or.inr ⟨o, List.mem_cons_self o rest, ?_⟩
        rw [h]
        unfold searchStep
        rw [if_pos hlt]
      · refine Or.inl ?_
        rw [h]
        unfold searchStep
        rw [if_neg hlt]
    · exact Or.inr ⟨o', List.mem_cons_of_mem o ho', h⟩

/-- Claim C7 (search part): with a non-inverted window the scan result lies
between the earliest and the latest wake time. -/
theorem findOptimalWakeTime_bounds (e l b : ℤ) (pat : SleepPattern) (h : e ≤ l) :
    e ≤ (findOptimalWakeTime e l b pat).optimalTime ∧
      (findOptimalWakeTime e l b pat).optimalTime ≤ l := by
  unfold findOptimalWakeTime
  dsimp only
  by_cases h0 : 0 < windowDur e l
  · rw [if_pos h0]
    rcases foldl_searchStep_time_mem e b (windowDur e l) pat
        (scanOffsets (windowDur e l)) (l, 0, SleepStageType.light) with hm | ⟨o, ho, hm⟩
    · rw [hm]; exact ⟨h, le_refl l⟩
    · rw [hm]
      have hle : (o : ℚ) ≤ windowDur e l := scanOffsets_le _ o ho
      have hmul : (o : ℚ) * 60000 ≤ ((l - e : ℤ) : ℚ) := by
        unfold windowDur at hle
        have h60 : (0 : ℚ) < 60000 := by norm_num
        calc (o : ℚ) * 60000 ≤ ((l - e : ℤ) : ℚ) / 60000 * 60000 := by
              exact mul_le_mul_of_nonneg_right hle (by norm_num)
          _ = ((l - e : ℤ) : ℚ) := by field_simp
      have hz : (o : ℤ) * 60000 ≤ l - e := by exact_mod_cast hmul
      unfold candTime
      constructor
      · have : (0 : ℤ) ≤ (o : ℤ) * 60000 := by positivity
        omega
      · omega
  · rw [if_neg h0]
    exact ⟨h, le_refl l⟩

/-- Claim C7: whether a pattern is present or absent, the predicted wake
time lies between the resolved earliest wake and the hard wake time,
whenever that window is not inverted. -/
theorem predicted_time_within_window :
    ∀ (pat : Option SleepPattern) (ww : WakeWindow) (bed : ℤ)
      (settings : UserSettings) (fb : List FeedbackRating),
      resolveEarliestWake ww bed ≤ resolveHardWake ww bed →
      resolveEarliestWake ww bed ≤ (generatePrediction pat ww bed settings fb).predictedWakeTime ∧
        (generatePrediction pat ww bed settings fb).predictedWakeTime ≤ resolveHardWake ww bed := by
  intro pat ww bed settings fb h
  cases pat with
  | none => exact ⟨h, le_refl _⟩
  | some p =>
    exact findOptimalWakeTime_bounds (resolveEarliestWake ww bed) (resolveHardWake ww bed) bed p h

/-- Fixture wake window: hard deadline 07:00, 30-minute window. -/
def wWin : WakeWindow := ⟨(7, 0), 30, none, true⟩

/-- Fixture bedtime: 22:00 on the epoch day (in milliseconds). -/
def wBed : ℤ := 79200000

/-- Fixture pattern with no light-sleep windows. -/
def wPat : SleepPattern := ⟨480, 90, [], 80, 10⟩

/-- Witness for C7 at the fixture inputs, with a pattern present. -/
theorem predicted_time_within_window_witness :
    resolveEarliestWake wWin wBed ≤ resolveHardWake wWin wBed ∧
      (resolveEarliestWake wWin wBed ≤
          (generatePrediction (some wPat) wWin wBed ⟨50⟩ []).predictedWakeTime ∧
        (generatePrediction (some wPat) wWin wBed ⟨50⟩ []).predictedWakeTime ≤
          resolveHardWake wWin wBed) :=
  ⟨by decide, predicted_time_within_window (some wPat) wWin wBed ⟨50⟩ [] (by decide)⟩

end WakeWise

namespace WakeWise

open WakeWise.SleepAnalysisService WakeWise.WakePredictorService

/-- The scan fold either keeps its initial state (no candidate beat the
initial score) or lands exactly on the first candidate attaining the
maximal candidate score that exceeds the initial score. -/
theorem foldl_searchStep_spec (e b : ℤ) (wd : ℚ) (pat : SleepPattern) :
    ∀ (l : List ℕ) (st : ℤ × ℚ × SleepStageType),
      (l.foldl (searchStep e b wd pat) st = st ∧
        ∀ o ∈ l, candScore e b wd pat o ≤ st.2.1) ∨
      ∃ i : ℕ, i < l.length ∧
        l.foldl (searchStep e b wd pat) st
          = (candTime e (l.getD i 0), candScore e b wd pat (l.getD i 0),
             (candStageProb e b pat (l.getD i 0)).1) ∧
        st.2.1 < candScore e b wd pat (l.getD i 0) ∧
        (∀ j, j < l.length →
          candScore e b wd pat (l.getD j 0) ≤ candScore e b wd pat (l.getD i 0)) ∧
        ∀ j, j < i →
          candScore e b wd pat (l.getD j 0) < candScore e b wd pat (l.getD i 0) := by
  intro l
  induction l with
  | nil =>
    intro st
    exact Or.inl ⟨rfl, by simp⟩
  | cons o rest ih =>
    intro st
    rw [List.foldl_cons]
    by_cases hlt : st.2.1 < candScore e b wd pat o
    · have hstep : searchStep e b wd pat st o
          = (candTime e o, candScore e b wd pat o, (candStageProb e b pat o).1) := by
        unfold searchStep
        rw [if_pos hlt]
      rcases ih (searchStep e b wd pat st o) with ⟨heq, hall⟩ | ⟨i, hilen, heq, hgt, hmax, hpre⟩
      · refine Or.inr ⟨0, by simp, ?_, ?_, ?_, ?_⟩
        · rw [heq, hstep]
          simp
        · simpa using hlt
        · intro j hj
          cases j with
          | zero => simp
          | succ j' =>
            have hmem : rest.getD j' 0 ∈ rest := by
              rw [List.getD_eq_getElem _ _ (by simpa using hj)]
              exact List.getElem_mem _
            have := hall (rest.getD j' 0) hmem
            rw [hstep] at this
            simpa using this
        · intro j hj
          omega
      · refine Or.inr ⟨i + 1, by simpa using hilen, ?_, ?_, ?_, ?_⟩
        · simpa using heq
        · have : st.2.1 < candScore e b wd pat o := hlt
          rw [hstep] at hgt
          simp only [List.getD_cons_succ]
          calc st.2.1 < candScore e b wd pat o := hlt
            _ < candScore e b wd pat (rest.getD i 0) := by simpa using hgt
        · intro j hj
          cases j with
          | zero =>
            rw [hstep] at hgt
            simp only [List.getD_cons_zero, List.getD_cons_succ]
            exact le_of_lt (by simpa using hgt)
          | succ j' =>
            simp only [List.getD_cons_succ]
            exact hmax j' (by simpa using hj)
        · intro j hj
          cases j with
          | zero =>
            rw [hstep] at hgt
            simp only [List.getD_cons_zero, List.getD_cons_succ]
            simpa using hgt
          | succ j' =>
            simp only [List.getD_cons_succ]
            exact hpre j' (by omega)
    · have hstep : searchStep e b wd pat st o = st := by
        unfold searchStep
        rw [if_neg hlt]
      rw [hstep]
      rcases ih st with ⟨heq, hall⟩ | ⟨i, hilen, heq, hgt, hmax, hpre⟩
      · refine Or.inl ⟨heq, ?_⟩
        intro o' ho'
        rcases List.mem_cons.mp ho' with rfl | h
        · exact le_of_not_lt hlt
        · exact hall o' h
      · refine Or.inr ⟨i + 1, by simpa using hilen, by simpa using heq, ?_, ?_, ?_⟩
        · simpa using hgt
        · intro j hj
          cases j with
          | zero =>
            simp only [List.getD_cons_zero, List.getD_cons_succ]
            exact (le_of_not_lt hlt).trans (le_of_lt hgt)
          | succ j' =>
            simp only [List.getD_cons_succ]
            exact hmax j' (by simpa using hj)
        · intro j hj
          cases j with
          | zero =>
            simp only [List.getD_cons_zero, List.getD_cons_succ]
            exact lt_of_le_of_lt (le_of_not_lt hlt) hgt
          | succ j' =>
            simp only [List.getD_cons_succ]
            exact hpre j' (by omega)

/-- The stage estimator never reports a negative probability when the
pattern's windows all carry non-negative probabilities. -/
theorem getMostLikelyStage_prob_nonneg (m : ℚ) (pat : SleepPattern)
    (hw : ∀ w ∈ pat.typicalLightSleepWindows, 0 ≤ w.probability) :
    0 ≤ (getMostLikelyStage m pat).2 := by
  unfold getMostLikelyStage
  cases hf : pat.typicalLightSleepWindows.find? (fun w =>
      decide (w.startMinutesFromSleep ≤ m ∧ m ≤ w.endMinutesFromSleep)) with
  | none =>
    dsimp only
    split_ifs <;> norm_num
  | some w =>
    dsimp only
    exact hw w (List.mem_of_find?_eq_some hf)

/-- With non-negative window probabilities and a positive window duration,
the very first candidate (offset 0) scores strictly above the initial best
score 0: its earliness bonus alone is 10. -/
theorem candScore_zero_pos (e b : ℤ) (wd : ℚ) (pat : SleepPattern)
    (hw : ∀ w ∈ pat.typicalLightSleepWindows, 0 ≤ w.probability) (h0 : 0 < wd) :
    0 < candScore e b wd pat 0 := by
  have hp : 0 ≤ (candStageProb e b pat 0).2 :=
    getMostLikelyStage_prob_nonneg _ _ hw
  unfold candScore
  dsimp only
  have hb : (wd - ((0 : ℕ) : ℚ)) / wd * 10 = 10 := by
    push_cast
    rw [sub_zero, div_self (ne_of_gt h0)]
    norm_num
  rw [hb]
  cases hc : (candStageProb e b pat 0).1 with
  | deep =>
    dsimp only
    nlinarith
  | light =>
    dsimp only
    nlinarith
  | rem =>
    dsimp only
    nlinarith
  | awake =>
    dsimp only
    nlinarith

/-- Claim C8: when the scanned window has at least one candidate and the
pattern's windows carry non-negative probabilities (as every pattern the
analyzer produces does), the returned optimal time is the
earliest-in-scan-order candidate attaining the maximal candidate score;
ties go to the earlier candidate because the fold replaces the running
best only on a strictly greater score. -/
theorem search_first_max (e l bed : ℤ) (pat : SleepPattern)
    (hw : ∀ w ∈ pat.typicalLightSleepWindows, 0 ≤ w.probability)
    (hel : e ≤ l) :
    ∃ i : ℕ, i < (scanOffsets (windowDur e l)).length ∧
      (findOptimalWakeTime e l bed pat).optimalTime
        = candTime e ((scanOffsets (windowDur e l)).getD i 0) ∧
      (∀ j, j < (scanOffsets (windowDur e l)).length →
        candScore e bed (windowDur e l) pat ((scanOffsets (windowDur e l)).getD j 0)
          ≤ candScore e bed (windowDur e l) pat ((scanOffsets (windowDur e l)).getD i 0)) ∧
      ∀ j, j < i →
        candScore e bed (windowDur e l) pat ((scanOffsets (windowDur e l)).getD j 0)
          < candScore e bed (windowDur e l) pat ((scanOffsets (windowDur e l)).getD i 0) := by
  have hwd0 : 0 ≤ windowDur e l := by
    unfold windowDur
    have h1 : (0 : ℚ) ≤ ((l - e : ℤ) : ℚ) := by
      exact_mod_cast sub_nonneg.mpr hel
    positivity
  by_cases h0 : 0 < windowDur e l
  · have hoff : (scanOffsets (windowDur e l)).getD 0 0 = 0 := by
      unfold scanOffsets
      rw [if_pos hwd0, List.range_succ_eq_map]
      simp
    have hlen0 : 0 < (scanOffsets (windowDur e l)).length := by
      unfold scanOffsets
      rw [if_pos hwd0]
      simp
    have hpos := candScore_zero_pos e bed (windowDur e l) pat hw h0
    rcases foldl_searchStep_spec e bed (windowDur e l) pat (scanOffsets (windowDur e l))
        (l, 0, SleepStageType.light) with ⟨heq, hall⟩ | ⟨i, hilen, heq, hgt, hmax, hpre⟩
    · exfalso
      have hmem : (scanOffsets (windowDur e l)).getD 0 0 ∈ scanOffsets (windowDur e l) := by
        rw [List.getD_eq_getElem _ _ hlen0]
        exact List.getElem_mem _
      have h00 := hall _ hmem
      rw [hoff] at h00
      dsimp only at h00
      linarith
    · refine ⟨i, hilen, ?_, hmax, hpre⟩
      unfold findOptimalWakeTime
      dsimp only
      rw [if_pos h0, heq]
  · have hwdeq : windowDur e l = 0 := le_antisymm (not_lt.mp h0) hwd0
    have hle : l = e := by
      unfold windowDur at hwdeq
      have h1 : ((l - e : ℤ) : ℚ) = 0 := by
        field_simp at hwdeq
        exact_mod_cast hwdeq
      have h2 : l - e = 0 := by exact_mod_cast h1
      omega
    have hoffs : scanOffsets (windowDur e l) = [0] := by
      rw [hwdeq]
      unfold scanOffsets
      rw [if_pos (le_refl 0)]
      norm_num
      rfl
    refine ⟨0, ?_, ?_, ?_, ?_⟩
    · rw [hoffs]
      norm_num
    · unfold findOptimalWakeTime
      dsimp only
      rw [if_neg h0, hoffs]
      unfold candTime
      simp [hle]
    · intro j hj
      rw [hoffs] at hj
      simp only [List.length_singleton] at hj
      have : j = 0 := by omega
      subst this
      exact le_refl _
    · intro j hj
      omega

/-- Witness for C8 at a 15-minute window with an empty-window pattern. -/
theorem search_first_max_witness :
    (∀ w ∈ wPat.typicalLightSleepWindows, 0 ≤ w.probability) ∧ (0 : ℤ) ≤ 900000 ∧
      ∃ i : ℕ, i < (scanOffsets (windowDur 0 900000)).length ∧
        (findOptimalWakeTime 0 900000 0 wPat).optimalTime
          = candTime 0 ((scanOffsets (windowDur 0 900000)).getD i 0) ∧
        (∀ j, j < (scanOffsets (windowDur 0 900000)).length →
          candScore 0 0 (windowDur 0 900000) wPat ((scanOffsets (windowDur 0 900000)).getD j 0)
            ≤ candScore 0 0 (windowDur 0 900000) wPat ((scanOffsets (windowDur 0 900000)).getD i 0)) ∧
        ∀ j, j < i →
          candScore 0 0 (windowDur 0 900000) wPat ((scanOffsets (windowDur 0 900000)).getD j 0)
            < candScore 0 0 (windowDur 0 900000) wPat ((scanOffsets (windowDur 0 900000)).getD i 0) :=
  ⟨by simp [wPat], by norm_num, search_first_max 0 900000 0 wPat (by simp [wPat]) (by norm_num)⟩

end WakeWise

namespace WakeWise

open WakeWise.SleepAnalysisService

/-- The statistical median of a list of rationals, following the spec's
word "median": middle element of the ascending sort for an odd count, mean
of the two middle elements for an even count. -/
def listMedian (l : List ℚ) : ℚ :=
  let s := l.insertionSort (· ≤ ·)
  if l.length % 2 = 1 then s.getD (l.length / 2) 0
  else (s.getD (l.length / 2 - 1) 0 + s.getD (l.length / 2) 0) / 2

/-- A session whose stage walk yields the two cycle candidates 60 and 100
minutes (light at 0, deep at 10, light at 60, deep at 70, light at 160). -/
def cexCycleSession : SleepSession :=
  { sleepStart := 0
    sleepEnd := 28800000
    totalDurationMinutes := 480
    stages := some
      [⟨SleepStageType.light, 0, 600000, 10⟩,
       ⟨SleepStageType.deep, 600000, 3600000, 50⟩,
       ⟨SleepStageType.light, 3600000, 4200000, 10⟩,
       ⟨SleepStageType.deep, 4200000, 9600000, 90⟩,
       ⟨SleepStageType.light, 9600000, 10200000, 10⟩] }

/-- Seven sessions (accepted by `analyzePatterns`) whose surviving cycle
candidates are `[60, 100]`. -/
def cexCycleSessions : List SleepSession :=
  cexCycleSession :: List.replicate 6 ⟨0, 28800000, 480, none⟩

/-- Counterexample to claim C5 as stated: on candidates `[60, 100]` the
code returns the upper-middle element 100, not the rounded statistical
median 80. -/
theorem cycle_median_cex :
    cycleCandidates cexCycleSessions = [60, 100] ∧
      detectCycleLength cexCycleSessions = 100 ∧
      jsRoundQ (listMedian (cycleCandidates cexCycleSessions)) = 80 ∧
      detectCycleLength cexCycleSessions
        ≠ jsRoundQ (listMedian (cycleCandidates cexCycleSessions)) := by
  have hc : cycleCandidates cexCycleSessions = [60, 100] := by
    norm_num [cycleCandidates, cexCycleSessions, cexCycleSession, cycleWalk]
    simp
  have hd : detectCycleLength cexCycleSessions = 100 := by
    simp only [detectCycleLength]
    rw [hc, if_neg (by simp : ¬ ([60, 100] : List ℚ) = [])]
    norm_num [List.insertionSort, List.orderedInsert, jsRoundQ]
  have hm : jsRoundQ (listMedian (cycleCandidates cexCycleSessions)) = 80 := by
    rw [hc]
    norm_num [listMedian, List.insertionSort, List.orderedInsert, jsRoundQ]
  exact ⟨hc, hd, hm, by rw [hd, hm]; norm_num⟩

/-- Claim C5 (amended): `averageCycleLength` equals the element at index
`⌊n/2⌋` of the ascending-sorted candidate list — the upper middle element,
which is the statistical median only for odd counts — rounded to the
nearest minute, and 90 when no candidate survives; in particular, when
every surviving candidate equals the same integer X (and at least one
survives), the result is exactly X. -/
theorem cycle_median_amended :
    (∀ sessions : List SleepSession,
      detectCycleLength sessions =
        (if cycleCandidates sessions = [] then 90
         else jsRoundQ (((cycleCandidates sessions).insertionSort (· ≤ ·)).getD
                ((cycleCandidates sessions).length / 2) 0)))
    ∧ ∀ (sessions : List SleepSession) (X : ℤ),
        cycleCandidates sessions ≠ [] →
        (∀ c ∈ cycleCandidates sessions, c = (X : ℚ)) →
        60 ≤ X → X ≤ 120 →
        detectCycleLength sessions = X := by
  constructor
  · intro sessions
    rfl
  · intro sessions X hne hall _h60 _h120
    unfold detectCycleLength
    dsimp only
    rw [if_neg hne]
    have hlen : 0 < (cycleCandidates sessions).length := List.length_pos.mpr hne
    have hsortlen : ((cycleCandidates sessions).insertionSort (· ≤ ·)).length
        = (cycleCandidates sessions).length := List.length_insertionSort _ _
    have hidx : (cycleCandidates sessions).length / 2
        < ((cycleCandidates sessions).insertionSort (· ≤ ·)).length := by
      rw [hsortlen]
      omega
    have hgd : ((cycleCandidates sessions).insertionSort (· ≤ ·)).getD
        ((cycleCandidates sessions).length / 2) 0 = (X : ℚ) := by
      rw [List.getD_eq_getElem _ _ hidx]
      have hmem := List.getElem_mem hidx
      exact hall _ ((List.perm_insertionSort (· ≤ ·) (cycleCandidates sessions)).mem_iff.mp hmem)
    rw [hgd]
    unfold jsRoundQ
    rw [Int.floor_int_add]
    norm_num

/-- A session whose stage walk yields the two identical candidates 75 and
75 minutes. -/
def witCycleSession : SleepSession :=
  { sleepStart := 0
    sleepEnd := 28800000
    totalDurationMinutes := 480
    stages := some
      [⟨SleepStageType.light, 0, 600000, 10⟩,
       ⟨SleepStageType.deep, 600000, 4500000, 65⟩,
       ⟨SleepStageType.light, 4500000, 5100000, 10⟩,
       ⟨SleepStageType.deep, 5100000, 9000000, 65⟩,
       ⟨SleepStageType.light, 9000000, 9600000, 10⟩] }

/-- Seven sessions whose surviving cycle candidates are `[75, 75]`. -/
def witCycleSessions : List SleepSession :=
  witCycleSession :: List.replicate 6 ⟨0, 28800000, 480, none⟩

/-- Witness for the amended C5 on identical 75-minute candidates. -/
theorem cycle_median_amended_witness :
    cycleCandidates witCycleSessions ≠ [] ∧
      (∀ c ∈ cycleCandidates witCycleSessions, c = ((75 : ℤ) : ℚ)) ∧
      (60 : ℤ) ≤ 75 ∧ (75 : ℤ) ≤ 120 ∧
      detectCycleLength witCycleSessions = 75 := by
  have hc : cycleCandidates witCycleSessions = [75, 75] := by
    norm_num [cycleCandidates, witCycleSessions, witCycleSession, cycleWalk]
    simp
  have h1 : cycleCandidates witCycleSessions ≠ [] := by
    rw [hc]
    simp
  have h2 : ∀ c ∈ cycleCandidates witCycleSessions, c = ((75 : ℤ) : ℚ) := by
    rw [hc]
    intro c hcm
    rcases List.mem_cons.mp hcm with rfl | hcm'
    · norm_num
    · rcases List.mem_cons.mp hcm' with rfl | h
      · norm_num
      · exact absurd h (List.not_mem_nil c)
  exact ⟨h1, h2, by norm_num, by norm_num,
    cycle_median_amended.2 witCycleSessions 75 h1 h2 (by norm_num) (by norm_num)⟩

end WakeWise

namespace WakeWise

open WakeWise.SleepAnalysisService

/-- The population standard deviation of a list of rationals, following
the spec's wording: square root of the mean squared deviation from the
mean (written directly over the reals). -/
noncomputable def stdDev (l : List ℚ) : ℝ :=
  let lr : List ℝ := l.map (fun q : ℚ => (q : ℝ))
  Real.sqrt (((lr.map (fun v : ℝ => (v - lr.sum / (l.length : ℝ)) ^ 2)).sum) / (l.length : ℝ))

/-- A consistency sub-score as the spec words it:
`max(0, 100 − (sd/60)*50)`. -/
noncomputable def subScore (sd : ℝ) : ℝ := max 0 (100 - sd / 60 * 50)

/-- The claim's consistency formula: rounded unweighted mean of the three
sub-scores for the standard deviations of total duration, bedtime
minute-of-day and wake minute-of-day (before-4:00 times shifted +1440
inside `getMinuteOfDay`). -/
noncomputable def claimConsistency (sessions : List SleepSession) : ℤ :=
  jsRoundR ((subScore (stdDev (sessions.map (·.totalDurationMinutes)))
    + subScore (stdDev (sessions.map (fun s => ((getMinuteOfDay s.sleepStart : ℤ) : ℚ))))
    + subScore (stdDev (sessions.map (fun s => ((getMinuteOfDay s.sleepEnd : ℤ) : ℚ))))) / 3)

/-- Casting a rational list sum to the reals sums the cast list. -/
theorem ratCast_list_sum (m : List ℚ) :
    ((m.sum : ℚ) : ℝ) = (m.map (fun q : ℚ => (q : ℝ))).sum := by
  induction m with
  | nil => simp
  | cons x xs ih => simp only [List.sum_cons, List.map_cons, Rat.cast_add, ih]

/-- The source's `calculateVariation` (exact rational mean and variance,
then `Math.sqrt`) computes exactly the standard deviation of the list. -/
theorem calculateVariation_eq_stdDev (l : List ℚ) : calculateVariation l = stdDev l := by
  unfold calculateVariation stdDev
  dsimp only
  congr 1
  simp only [foldl_add_eq_sum, zero_add]
  rw [Rat.cast_div, ratCast_list_sum, Rat.cast_natCast]
  simp only [List.map_map]
  congr 1
  congr 1
  apply List.map_congr_left
  intro a _
  simp only [Function.comp_apply]
  rw [Rat.cast_pow, Rat.cast_sub, Rat.cast_div, ratCast_list_sum, Rat.cast_natCast]

/-- Claim C6: the consistency score is 0 below 3 sessions and otherwise
the rounded unweighted mean of the three `max(0, 100 − (sd/60)*50)`
sub-scores over duration, bedtime and wake-time standard deviations. -/
theorem consistency_formula :
    ∀ sessions : List SleepSession,
      (sessions.length < 3 → calculateConsistency sessions = 0) ∧
      (3 ≤ sessions.length → calculateConsistency sessions = claimConsistency sessions) := by
  intro sessions
  constructor
  · intro h
    unfold calculateConsistency
    rw [if_pos h]
  · intro h
    unfold calculateConsistency
    rw [if_neg (by omega)]
    unfold claimConsistency subScore
    simp only [calculateVariation_eq_stdDev]

/-- Two identical sessions (below the 3-session threshold). -/
def sWit2 : List SleepSession := List.replicate 2 ⟨0, 28800000, 480, none⟩

/-- Three identical sessions (at the 3-session threshold). -/
def sWit3 : List SleepSession := List.replicate 3 ⟨0, 28800000, 480, none⟩

/-- Witness for C6: both branches at concrete session lists. -/
theorem consistency_formula_witness :
    (sWit2.length < 3 ∧ calculateConsistency sWit2 = 0) ∧
      (3 ≤ sWit3.length ∧ calculateConsistency sWit3 = claimConsistency sWit3) :=
  ⟨⟨by decide, (consistency_formula sWit2).1 (by decide)⟩,
   ⟨by decide, (consistency_formula sWit3).2 (by decide)⟩⟩

end WakeWise

namespace WakeWise.SleepAnalysisService

open WakeWise

/-- Soundness of the window scan: every window it closes strictly before
minute 600 spans bucket-aligned boundaries, its probability is the summed
light counts over one plus the summed totals of its buckets, and every one
of its buckets has light probability at least 2/5. -/
theorem scanAux_closed_sound (light tot : ℕ → ℕ) :
    ∀ (n i : ℕ) (ws : Option ℕ),
      (∀ s, ws = some s → ∃ a, s = 15 * a ∧ a < i ∧
        ∀ j, a ≤ j → j < i → (2 : ℚ)/5 ≤ bucketProb (light j) (tot j)) →
      ∀ w ∈ scanAux light tot i n ws, w.endMinutesFromSleep < 600 →
        ∃ a b : ℕ, w.startMinutesFromSleep = ((15 * a : ℕ) : ℚ) ∧
          w.endMinutesFromSleep = ((15 * b : ℕ) : ℚ) ∧ a < b ∧
          w.probability = windowProb light tot a b ∧
          ∀ j, a ≤ j → j < b → (2 : ℚ)/5 ≤ bucketProb (light j) (tot j) := by
  intro n
  induction n with
  | zero =>
    intro i ws hws w hw hend
    cases ws with
    | none => exact absurd hw (List.not_mem_nil w)
    | some s =>
      simp only [scanAux, List.mem_singleton] at hw
      subst hw
      norm_num at hend
  | succ m ih =>
    intro i ws hws w hw hend
    simp only [scanAux] at hw
    by_cases hp : (2 : ℚ)/5 ≤ bucketProb (light i) (tot i)
    · rw [if_pos hp] at hw
      refine ih (i + 1) (some (ws.getD (15 * i))) ?_ w hw hend
      intro s hs
      have hseq : s = ws.getD (15 * i) := by
        injection hs.symm
      cases ws with
      | none =>
        refine ⟨i, by simpa using hseq, by omega, ?_⟩
        intro j hj1 hj2
        have : j = i := by omega
        subst this
        exact hp
      | some s0 =>
        obtain ⟨a, ha1, ha2, ha3⟩ := hws s0 rfl
        have hss0 : s = s0 := by simpa using hseq
        subst hss0
        refine ⟨a, ha1, by omega, ?_⟩
        intro j hj1 hj2
        by_cases hji : j < i
        · exact ha3 j hj1 hji
        · have : j = i := by omega
          subst this
          exact hp
    · rw [if_neg hp] at hw
      cases ws with
      | none => exact ih (i + 1) none (by simp) w hw hend
      | some s =>
        rcases List.mem_cons.mp hw with rfl | hw'
        · obtain ⟨a, ha1, ha2, ha3⟩ := hws s rfl
          refine ⟨a, i, ?_, rfl, ha2, ?_, ha3⟩
          · simp [ha1]
          · show windowProb light tot (s / 15) i = windowProb light tot a i
            rw [ha1, Nat.mul_div_cancel_left a (by norm_num : 0 < 15)]
        · exact ih (i + 1) none (by simp) w hw' hend

/-- A run of buckets below the 2/5 threshold with no open window is
skipped by the scan. -/
theorem scanAux_skip_low (light tot : ℕ → ℕ) :
    ∀ (m i n : ℕ),
      (∀ j, i ≤ j → j < i + m → bucketProb (light j) (tot j) < (2 : ℚ)/5) →
      scanAux light tot i (m + n) none = scanAux light tot (i + m) n none := by
  intro m
  induction m with
  | zero =>
    intro i n _
    simp
  | succ m' ih =>
    intro i n hlow
    have hpi : ¬ (2 : ℚ)/5 ≤ bucketProb (light i) (tot i) :=
      not_le.mpr (hlow i (le_refl i) (by omega))
    have h1 : m' + 1 + n = (m' + n) + 1 := by omega
    rw [h1]
    simp only [scanAux]
    rw [if_neg hpi]
    have h2 := ih (i + 1) n (fun j hj1 hj2 => hlow j (by omega) (by omega))
    have h3 : i + 1 + m' = i + (m' + 1) := by omega
    rw [h3] at h2
    exact h2

end WakeWise.SleepAnalysisService

namespace WakeWise.SleepAnalysisService

open WakeWise

/-- One scan step on a bucket at or above the threshold: open (or keep) the
window and advance. -/
theorem scanAux_step_high (light tot : ℕ → ℕ) {i : ℕ} (n : ℕ) (ws : Option ℕ)
    (h : (2 : ℚ)/5 ≤ bucketProb (light i) (tot i)) :
    scanAux light tot i (n + 1) ws
      = scanAux light tot (i + 1) n (some (ws.getD (15 * i))) := by
  simp only [scanAux]
  rw [if_pos h]

/-- One scan step on a below-threshold bucket with an open window: close
and push the window, then advance. -/
theorem scanAux_step_close (light tot : ℕ → ℕ) {i : ℕ} (n s : ℕ)
    (h : ¬ (2 : ℚ)/5 ≤ bucketProb (light i) (tot i)) :
    scanAux light tot i (n + 1) (some s)
      = ⟨(s : ℚ), ((15 * i : ℕ) : ℚ), windowProb light tot (s / 15) i⟩ ::
          scanAux light tot (i + 1) n none := by
  simp only [scanAux]
  rw [if_neg h]

/-- Under the synthetic two-bucket hypothesis, the light counter of the two
designated buckets equals the total counter. -/
theorem bucketLight_eq_bucketTotal (sessions : List SleepSession) (k : ℕ)
    (hL : ∀ s ∈ sessions, ∀ st ∈ s.stages.getD [],
      (st.type = SleepStageType.light ↔
        (stageBucket s st = some k ∨ stageBucket s st = some (k + 1))))
    (j : ℕ) (hj : j = k ∨ j = k + 1) :
    bucketLight sessions j = bucketTotal sessions j := by
  unfold bucketLight bucketTotal
  congr 1
  apply List.map_congr_left
  intro s hs
  congr 1
  apply List.filter_congr
  intro st hst
  apply decide_eq_decide.mpr
  constructor
  · exact And.left
  · intro hb
    refine ⟨hb, (hL s hs st hst).mpr ?_⟩
    rcases hj with rfl | rfl
    · exact Or.inl hb
    · exact Or.inr hb

/-- Under the synthetic two-bucket hypothesis, every other bucket has no
light stage. -/
theorem bucketLight_eq_zero (sessions : List SleepSession) (k : ℕ)
    (hL : ∀ s ∈ sessions, ∀ st ∈ s.stages.getD [],
      (st.type = SleepStageType.light ↔
        (stageBucket s st = some k ∨ stageBucket s st = some (k + 1))))
    (j : ℕ) (hjk : j ≠ k) (hjk1 : j ≠ k + 1) :
    bucketLight sessions j = 0 := by
  unfold bucketLight
  refine List.sum_eq_zero ?_
  intro x hx
  rcases List.mem_map.mp hx with ⟨s, hs, rfl⟩
  rw [List.length_eq_zero, List.filter_eq_nil_iff]
  intro st hst hcond
  rw [decide_eq_true_eq] at hcond
  obtain ⟨hb, hl⟩ := hcond
  rcases (hL s hs st hst).mp hl with h | h
  · rw [hb] at h
    exact hjk (by injection h)
  · rw [hb] at h
    exact hjk1 (by injection h)

/-- On a synthetic dataset where exactly buckets `k` and `k+1` hold stages
that are all light (with data present in both) and no other stage is
light, the scan yields exactly one window covering those two buckets, and
its probability is `T/(1+T)` for `T` the total stage count inside it. -/
theorem lightWindows_synthetic (sessions : List SleepSession) (k : ℕ)
    (hk : k + 2 < 40)
    (hL : ∀ s ∈ sessions, ∀ st ∈ s.stages.getD [],
      (st.type = SleepStageType.light ↔
        (stageBucket s st = some k ∨ stageBucket s st = some (k + 1))))
    (hTk : 0 < bucketTotal sessions k) (hTk1 : 0 < bucketTotal sessions (k + 1)) :
    findLightSleepWindows sessions
      = [⟨((15 * k : ℕ) : ℚ), ((15 * (k + 2) : ℕ) : ℚ),
          windowProb (bucketLight sessions) (bucketTotal sessions) k (k + 2)⟩] ∧
      bucketLight sessions k = bucketTotal sessions k ∧
      bucketLight sessions (k + 1) = bucketTotal sessions (k + 1) ∧
      windowProb (bucketLight sessions) (bucketTotal sessions) k (k + 2)
        = ((bucketTotal sessions k + bucketTotal sessions (k + 1) : ℕ) : ℚ)
          / ((1 + (bucketTotal sessions k + bucketTotal sessions (k + 1)) : ℕ) : ℚ) := by
  have heqk : bucketLight sessions k = bucketTotal sessions k :=
    bucketLight_eq_bucketTotal sessions k hL k (Or.inl rfl)
  have heqk1 : bucketLight sessions (k + 1) = bucketTotal sessions (k + 1) :=
    bucketLight_eq_bucketTotal sessions k hL (k + 1) (Or.inr rfl)
  have hpk : bucketProb (bucketLight sessions k) (bucketTotal sessions k) = 1 := by
    unfold bucketProb
    rw [if_pos hTk, heqk]
    exact div_self (Nat.cast_ne_zero.mpr (by omega))
  have hpk1 : bucketProb (bucketLight sessions (k + 1)) (bucketTotal sessions (k + 1)) = 1 := by
    unfold bucketProb
    rw [if_pos hTk1, heqk1]
    exact div_self (Nat.cast_ne_zero.mpr (by omega))
  have hplow : ∀ j, j ≠ k → j ≠ k + 1 →
      bucketProb (bucketLight sessions j) (bucketTotal sessions j) < (2 : ℚ)/5 := by
    intro j h1 h2
    have hz := bucketLight_eq_zero sessions k hL j h1 h2
    unfold bucketProb
    rw [hz]
    split_ifs with h
    · rw [Nat.cast_zero, zero_div]
      norm_num
    · norm_num
  have hIco : ∀ f : ℕ → ℕ, ∑ j ∈ Finset.Ico k (k + 2), f j = f k + f (k + 1) := by
    intro f
    rw [show k + 2 = (k + 1) + 1 from rfl,
      Finset.sum_Ico_succ_top (by omega), Finset.sum_Ico_succ_top (by omega),
      Finset.Ico_self, Finset.sum_empty]
    omega
  have hwp : windowProb (bucketLight sessions) (bucketTotal sessions) k (k + 2)
      = ((bucketTotal sessions k + bucketTotal sessions (k + 1) : ℕ) : ℚ)
        / ((1 + (bucketTotal sessions k + bucketTotal sessions (k + 1)) : ℕ) : ℚ) := by
    unfold windowProb
    rw [hIco, hIco, heqk, heqk1]
  set L := bucketLight sessions with hLdef
  set T := bucketTotal sessions with hTdef
  have e1 : scanAux L T 0 40 none = scanAux L T k ((37 - k) + 3) none := by
    have h40 : (40 : ℕ) = k + ((37 - k) + 3) := by omega
    rw [h40, scanAux_skip_low L T k 0 ((37 - k) + 3)
      (fun j hj1 hj2 => hplow j (by omega) (by omega)), Nat.zero_add]
  have e2 : scanAux L T k ((37 - k) + 3) none
      = scanAux L T (k + 1) ((37 - k) + 2) (some (15 * k)) := by
    have hf : (37 - k) + 3 = ((37 - k) + 2) + 1 := by omega
    rw [hf, scanAux_step_high L T ((37 - k) + 2) none (by rw [hpk]; norm_num)]
    simp
  have e3 : scanAux L T (k + 1) ((37 - k) + 2) (some (15 * k))
      = scanAux L T (k + 2) ((37 - k) + 1) (some (15 * k)) := by
    have hf : (37 - k) + 2 = ((37 - k) + 1) + 1 := by omega
    rw [hf, scanAux_step_high L T ((37 - k) + 1) (some (15 * k)) (by rw [hpk1]; norm_num)]
    simp
  have e4 : scanAux L T (k + 2) ((37 - k) + 1) (some (15 * k))
      = ⟨((15 * k : ℕ) : ℚ), ((15 * (k + 2) : ℕ) : ℚ), windowProb L T ((15 * k) / 15) (k + 2)⟩ ::
          scanAux L T (k + 3) (37 - k) none := by
    rw [scanAux_step_close L T (37 - k) (15 * k)
      (not_le.mpr (hplow (k + 2) (by omega) (by omega)))]
  have e5 : scanAux L T (k + 3) (37 - k) none = [] := by
    have h0 : 37 - k = (37 - k) + 0 := by omega
    rw [h0, scanAux_skip_low L T (37 - k) (k + 3) 0
      (fun j hj1 hj2 => hplow j (by omega) (by omega))]
    simp [scanAux]
  have hdiv : (15 * k) / 15 = k := Nat.mul_div_cancel_left k (by norm_num : 0 < 15)
  refine ⟨?_, heqk, heqk1, hwp⟩
  show scanAux L T 0 40 none = _
  rw [e1, e2, e3, e4, e5, hdiv]

namespace WakeWise

open WakeWise.SleepAnalysisService

/-- A session with two light stages, at offsets 0 and 15 minutes. -/
def cexLightSession : SleepSession :=
  { sleepStart := 0
    sleepEnd := 28800000
    totalDurationMinutes := 480
    stages := some
      [⟨SleepStageType.light, 0, 900000, 15⟩,
       ⟨SleepStageType.light, 900000, 1800000, 15⟩] }

/-- Seven such sessions: all stages light, all in buckets 0 and 1. -/
def cexLightSessions : List SleepSession := List.replicate 7 cexLightSession

theorem cex_stageBucket_zero :
    stageBucket cexLightSession ⟨SleepStageType.light, 0, 900000, 15⟩ = some 0 := by
  norm_num [stageBucket, stageOffset, cexLightSession]

theorem cex_stageBucket_one :
    stageBucket cexLightSession ⟨SleepStageType.light, 900000, 1800000, 15⟩ = some 1 := by
  norm_num [stageBucket, stageOffset, cexLightSession]

theorem cex_lightHyp :
    ∀ s ∈ cexLightSessions, ∀ st ∈ s.stages.getD [],
      (st.type = SleepStageType.light ↔
        (stageBucket s st = some 0 ∨ stageBucket s st = some (0 + 1))) := by
  intro s hs st hst
  have hse : s = cexLightSession := List.eq_of_mem_replicate hs
  subst hse
  simp only [cexLightSession, Option.getD_some, List.mem_cons,
    List.not_mem_nil, or_false] at hst
  rcases hst with rfl | rfl
  · rw [cex_stageBucket_zero]
    simp
  · rw [cex_stageBucket_one]
    simp

theorem cex_stages_eq : cexLightSession.stages.getD [] =
    [⟨SleepStageType.light, 0, 900000, 15⟩,
     ⟨SleepStageType.light, 900000, 1800000, 15⟩] := rfl

theorem cex_bucketTotal_zero : bucketTotal cexLightSessions 0 = 7 := by
  simp only [bucketTotal, cexLightSessions, List.map_replicate, List.sum_replicate,
    cex_stages_eq, List.filter_cons, List.filter_nil,
    cex_stageBucket_zero, cex_stageBucket_one]
  simp

theorem cex_bucketTotal_one : bucketTotal cexLightSessions 1 = 7 := by
  simp only [bucketTotal, cexLightSessions, List.map_replicate, List.sum_replicate,
    cex_stages_eq, List.filter_cons, List.filter_nil,
    cex_stageBucket_zero, cex_stageBucket_one]
  simp

/-- Counterexample to claim C1 as stated: on a dataset accepted by
`analyzePatterns` in which all 14 stages are light and fall in buckets 0
and 1, the single closed window has probability 14/15 — the summed light
count over **one plus** the summed total count — not the claimed summed
light over summed total, which here is 14/14 = 1. -/
theorem lightWindow_probability_cex :
    7 ≤ cexLightSessions.length ∧
      findLightSleepWindows cexLightSessions = [⟨0, 30, 14/15⟩] ∧
      bucketLight cexLightSessions 0 + bucketLight cexLightSessions 1 = 14 ∧
      bucketTotal cexLightSessions 0 + bucketTotal cexLightSessions 1 = 14 ∧
      ¬ ((14 : ℚ)/15 = (14 : ℚ)/14) := by
  have hsyn := lightWindows_synthetic cexLightSessions 0 (by norm_num) cex_lightHyp
    (by rw [cex_bucketTotal_zero]; norm_num) (by rw [cex_bucketTotal_one]; norm_num)
  obtain ⟨hlist, heq0, heq1, hwp⟩ := hsyn
  have hTsum : bucketTotal cexLightSessions 0 + bucketTotal cexLightSessions (0 + 1) = 14 := by
    rw [cex_bucketTotal_zero, cex_bucketTotal_one]
  refine ⟨by decide, ?_, ?_, ?_, by norm_num⟩
  · rw [hlist, hwp, hTsum]
    norm_num
  · rw [heq0, heq1, cex_bucketTotal_zero, cex_bucketTotal_one]
  · rw [cex_bucketTotal_zero, cex_bucketTotal_one]

/-- Claim C1 (amended): every window closed before the 600-minute scan end
spans contiguous 15-minute buckets each of light probability ≥ 0.4, and
its probability is the summed light count divided by **one плюс** the summed
total count of its buckets (the source folds the totals with initial
accumulator 1); for the synthetic dataset with data present in exactly the
buckets of [B, B+30), all of it light and nothing light elsewhere, the
result is exactly one window covering [B, B+30) with probability T/(1+T),
where T is the stage count inside the window (not 1.0). -/
theorem lightWindow_probability_amended :
    (∀ sessions : List SleepSession, ∀ w ∈ findLightSleepWindows sessions,
      w.endMinutesFromSleep < 600 →
      ∃ a b : ℕ, w.startMinutesFromSleep = ((15 * a : ℕ) : ℚ) ∧
        w.endMinutesFromSleep = ((15 * b : ℕ) : ℚ) ∧ a < b ∧
        w.probability = windowProb (bucketLight sessions) (bucketTotal sessions) a b ∧
        ∀ j, a ≤ j → j < b →
          (2 : ℚ)/5 ≤ bucketProb (bucketLight sessions j) (bucketTotal sessions j))
    ∧ ∀ (sessions : List SleepSession) (k : ℕ),
        k + 2 < 40 →
        (∀ s ∈ sessions, ∀ st ∈ s.stages.getD [],
          (st.type = SleepStageType.light ↔
            (stageBucket s st = some k ∨ stageBucket s st = some (k + 1)))) →
        0 < bucketTotal sessions k → 0 < bucketTotal sessions (k + 1) →
        findLightSleepWindows sessions
          = [⟨((15 * k : ℕ) : ℚ), ((15 * (k + 2) : ℕ) : ℚ),
              windowProb (bucketLight sessions) (bucketTotal sessions) k (k + 2)⟩] ∧
        bucketLight sessions k = bucketTotal sessions k ∧
        bucketLight sessions (k + 1) = bucketTotal sessions (k + 1) ∧
        windowProb (bucketLight sessions) (bucketTotal sessions) k (k + 2)
          = ((bucketTotal sessions k + bucketTotal sessions (k + 1) : ℕ) : ℚ)
            / ((1 + (bucketTotal sessions k + bucketTotal sessions (k + 1)) : ℕ) : ℚ) := by
  constructor
  · intro sessions w hw hend
    unfold findLightSleepWindows at hw
    exact scanAux_closed_sound (bucketLight sessions) (bucketTotal sessions) 40 0 none
      (by intro s hs; simp at hs) w hw hend
  · intro sessions k hk hL hTk hTk1
    exact lightWindows_synthetic sessions k hk hL hTk hTk1

/-- A session with two light stages at offsets 30 and 45 minutes. -/
def witLightSession : SleepSession :=
  { sleepStart := 0
    sleepEnd := 28800000
    totalDurationMinutes := 480
    stages := some
      [⟨SleepStageType.light, 1800000, 2700000, 15⟩,
       ⟨SleepStageType.light, 2700000, 3600000, 15⟩] }

/-- Seven such sessions: all stages light, all in buckets 2 and 3. -/
def witLightSessions : List SleepSession := List.replicate 7 witLightSession

theorem wit_stageBucket_two :
    stageBucket witLightSession ⟨SleepStageType.light, 1800000, 2700000, 15⟩ = some 2 := by
  norm_num [stageBucket, stageOffset, witLightSession]
  rfl

theorem wit_stageBucket_three :
    stageBucket witLightSession ⟨SleepStageType.light, 2700000, 3600000, 15⟩ = some 3 := by
  norm_num [stageBucket, stageOffset, witLightSession]
  rfl

theorem wit_lightHyp :
    ∀ s ∈ witLightSessions, ∀ st ∈ s.stages.getD [],
      (st.type = SleepStageType.light ↔
        (stageBucket s st = some 2 ∨ stageBucket s st = some (2 + 1))) := by
  intro s hs st hst
  have hse : s = witLightSession := List.eq_of_mem_replicate hs
  subst hse
  simp only [witLightSession, Option.getD_some, List.mem_cons,
    List.not_mem_nil, or_false] at hst
  rcases hst with rfl | rfl
  · rw [wit_stageBucket_two]
    simp
  · rw [wit_stageBucket_three]
    simp

theorem wit_stages_eq : witLightSession.stages.getD [] =
    [⟨SleepStageType.light, 1800000, 2700000, 15⟩,
     ⟨SleepStageType.light, 2700000, 3600000, 15⟩] := rfl

theorem wit_bucketTotal_two : bucketTotal witLightSessions 2 = 7 := by
  simp only [bucketTotal, witLightSessions, List.map_replicate, List.sum_replicate,
    wit_stages_eq, List.filter_cons, List.filter_nil,
    wit_stageBucket_two, wit_stageBucket_three]
  simp

theorem wit_bucketTotal_three : bucketTotal witLightSessions 3 = 7 := by
  simp only [bucketTotal, witLightSessions, List.map_replicate, List.sum_replicate,
    wit_stages_eq, List.filter_cons, List.filter_nil,
    wit_stageBucket_two, wit_stageBucket_three]
  simp

/-- Witness for the amended C1 at B = 30 (buckets 2 and 3): both the
synthetic clause and the closed-window clause, the latter applied to the
single produced window. -/
theorem lightWindow_probability_amended_witness :
    ((2 : ℕ) + 2 < 40 ∧ 0 < bucketTotal witLightSessions 2 ∧
        0 < bucketTotal witLightSessions (2 + 1)) ∧
      (findLightSleepWindows witLightSessions
          = [⟨((15 * 2 : ℕ) : ℚ), ((15 * (2 + 2) : ℕ) : ℚ),
              windowProb (bucketLight witLightSessions) (bucketTotal witLightSessions) 2 (2 + 2)⟩] ∧
        bucketLight witLightSessions 2 = bucketTotal witLightSessions 2 ∧
        bucketLight witLightSessions (2 + 1) = bucketTotal witLightSessions (2 + 1) ∧
        windowProb (bucketLight witLightSessions) (bucketTotal witLightSessions) 2 (2 + 2)
          = ((bucketTotal witLightSessions 2 + bucketTotal witLightSessions (2 + 1) : ℕ) : ℚ)
            / ((1 + (bucketTotal witLightSessions 2 + bucketTotal witLightSessions (2 + 1)) : ℕ) : ℚ)) ∧
      ∃ a b : ℕ,
        (⟨((15 * 2 : ℕ) : ℚ), ((15 * (2 + 2) : ℕ) : ℚ),
            windowProb (bucketLight witLightSessions) (bucketTotal witLightSessions)
              2 (2 + 2)⟩ : TimeWindow).startMinutesFromSleep = ((15 * a : ℕ) : ℚ) ∧
        (⟨((15 * 2 : ℕ) : ℚ), ((15 * (2 + 2) : ℕ) : ℚ),
            windowProb (bucketLight witLightSessions) (bucketTotal witLightSessions)
              2 (2 + 2)⟩ : TimeWindow).endMinutesFromSleep = ((15 * b : ℕ) : ℚ) ∧ a < b ∧
        (⟨((15 * 2 : ℕ) : ℚ), ((15 * (2 + 2) : ℕ) : ℚ),
            windowProb (bucketLight witLightSessions) (bucketTotal witLightSessions)
              2 (2 + 2)⟩ : TimeWindow).probability
          = windowProb (bucketLight witLightSessions) (bucketTotal witLightSessions) a b ∧
        ∀ j, a ≤ j → j < b →
          (2 : ℚ)/5 ≤ bucketProb (bucketLight witLightSessions j) (bucketTotal witLightSessions j) := by
  have h2 : (0 : ℕ) < bucketTotal witLightSessions 2 := by
    rw [wit_bucketTotal_two]
    norm_num
  have h3 : (0 : ℕ) < bucketTotal witLightSessions (2 + 1) := by
    rw [show (2 : ℕ) + 1 = 3 from rfl, wit_bucketTotal_three]
    norm_num
  have hsyn := lightWindow_probability_amended.2 witLightSessions 2 (by norm_num)
    wit_lightHyp h2 h3
  refine ⟨⟨by norm_num, h2, h3⟩, hsyn, ?_⟩
  have hmem : (⟨((15 * 2 : ℕ) : ℚ), ((15 * (2 + 2) : ℕ) : ℚ),
      windowProb (bucketLight witLightSessions) (bucketTotal witLightSessions)
        2 (2 + 2)⟩ : TimeWindow) ∈ findLightSleepWindows witLightSessions := by
    rw [hsyn.1]
    exact List.mem_singleton.mpr rfl
  exact lightWindow_probability_amended.1 witLightSessions _ hmem (by norm_num)

end WakeWise
